import Mathlib

/-!
Verification of the fftw Go binding's allocation / view / plan-lifecycle layer.

The Go source (fftw.go) is shallowly embedded:
  * native memory is addressed by byte addresses (`Nat`); a `complex128`
    occupies 16 bytes (the source allocates `16 * n` bytes for `n` elements);
  * a Go slice of `complex128` is a `Buf Cplx`: the byte address of its first
    element plus the list of its elements (`complex128` values are modelled as
    exact pairs, since this layer only writes the literal `0` and never does
    float arithmetic itself);
  * the outcome of the native allocator is an oracle (`MallocEnv`): the results
    of the first and the second `fftw_malloc` attempt, and the junk contents of
    freshly allocated memory;
  * every observable native call (`fftw_malloc`, `runtime.GC`, `fftw_free`,
    plan creation, `runtime.SetFinalizer`, `fftw_execute`,
    `fftw_destroy_plan`) is recorded in an event trace;
  * a Go runtime panic (index out of range) or an explicit `panic(...)` is an
    `Except` error: the function never returns a value, and the trace holds
    the events that happened before the panic.
-/

/-- Model of a `complex128` cell: an exact pair standing for (re, im).
This layer only ever stores the literal zero or junk from the allocator. -/
abbrev Cplx : Type := Int × Int

/-- Model of a `float64` cell (contents are never inspected by this layer). -/
abbrev Flt : Type := Int

/-- A Go slice over native memory: byte address of element 0 and the elements
visible through the slice. -/
structure Buf (α : Type) where
  base : Nat
  data : List α
deriving DecidableEq

/-- The five planning entry points of the FFTW engine used by the source. -/
inductive PlanKind where
  | dft1d
  | dft2d
  | dft3d
  | dftR2C1d
  | dftC2R1d
deriving DecidableEq

/-- Observable native / runtime calls made by the layer, in order. -/
inductive Event where
  | mallocCall (bytes : Nat)
  | gcRun
  | freeCall (addr : Nat)
  | planCreate (kind : PlanKind) (dims : List Nat) (inPtr outPtr : Nat)
      (dir : Option Int) (flag : Nat)
  | finalizerSet (handle : Nat)
  | executeCall (handle : Nat)
  | destroyCall (handle : Nat)
deriving DecidableEq

/-- A Go runtime panic: an out-of-range index, or an explicit `panic(msg)`. -/
inductive GoPanic where
  | indexOutOfRange
  | explicitAbort (msg : String)
deriving DecidableEq

instance {ε α : Type} [DecidableEq ε] [DecidableEq α] : DecidableEq (Except ε α) :=
  fun a b =>
    match a, b with
    | .error e, .error f =>
        if h : e = f then .isTrue (h ▸ rfl)
        else .isFalse fun hc => h (Except.noConfusion hc id)
    | .error _, .ok _ => .isFalse fun hc => Except.noConfusion hc
    | .ok _, .error _ => .isFalse fun hc => Except.noConfusion hc
    | .ok x, .ok y =>
        if h : x = y then .isTrue (h ▸ rfl)
        else .isFalse fun hc => h (Except.noConfusion hc id)

/-- Result of running a piece of the layer: either a value or a panic, plus
the trace of native calls that happened before returning / panicking. -/
structure Outcome (α : Type) where
  result : Except GoPanic α
  trace : List Event
deriving DecidableEq

/-- Sequencing: a panic aborts, a normal result feeds the continuation; traces
concatenate. -/
def Outcome.bind {α β : Type} (o : Outcome α) (f : α → Outcome β) : Outcome β :=
  match o.result with
  | .error e => ⟨.error e, o.trace⟩
  | .ok a => ⟨(f a).result, o.trace ++ (f a).trace⟩

/-- Oracle for the native allocator: outcome of the first `fftw_malloc`
attempt, outcome of the retry after `runtime.GC()`, and the junk contents of
whatever memory is handed out (indexed by element position). A failed attempt
carries the text of the Go `error` value. -/
structure MallocEnv where
  attempt1 : Except String Nat
  attempt2 : Except String Nat
  junk : Nat → Cplx

/-- Contents of freshly `fftw_malloc`ed memory, before any initialization:
`n` junk elements. -/
def rawSlice (junk : Nat → Cplx) (n : Nat) : List Cplx :=
  (List.range n).map junk

/-- The loop `for i := 0; i < n; i++ { slice[i] = 0 }`, running from index `i`
with `fuel` iterations left. -/
def zeroFrom : List Cplx → Nat → Nat → List Cplx
  | s, _, 0 => s
  | s, i, fuel + 1 => zeroFrom (s.set i 0) (i + 1) fuel

/-- Element-by-element zero initialization of a whole slice, exactly as the
source's explicit loop does it. -/
def zeroInit (s : List Cplx) : List Cplx :=
  zeroFrom s 0 s.length

/-- The message built by `fmt.Sprint("Could not fftw_malloc for ", n,
" elements: ", err)`. -/
def fftwMallocMsg (n : Nat) (err : String) : String :=
  "Could not fftw_malloc for " ++ toString n ++ " elements: " ++ err

/-- Embedding of `Alloc1d`: try `fftw_malloc(16*n)`; on failure run the GC and
retry once; on a second failure panic; otherwise build the slice header over
the raw memory and zero it element by element. -/
def Alloc1d (env : MallocEnv) (n : Nat) : Outcome (Buf Cplx) :=
  match env.attempt1 with
  | .ok p =>
      ⟨.ok ⟨p, zeroInit (rawSlice env.junk n)⟩, [.mallocCall (16 * n)]⟩
  | .error _ =>
      match env.attempt2 with
      | .ok p =>
          ⟨.ok ⟨p, zeroInit (rawSlice env.junk n)⟩,
            [.mallocCall (16 * n), .gcRun, .mallocCall (16 * n)]⟩
      | .error e2 =>
          ⟨.error (.explicitAbort (fftwMallocMsg n e2)),
            [.mallocCall (16 * n), .gcRun, .mallocCall (16 * n)]⟩

/-- The Go slice expression `a[lo:hi]`: it shares the backing store, so its
first element sits at byte address `base + 16*lo` (used by the source only
with `lo ≤ hi ≤ len a`). -/
def sliceRange (a : Buf Cplx) (lo hi : Nat) : Buf Cplx :=
  ⟨a.base + 16 * lo, (a.data.drop lo).take (hi - lo)⟩

/-- Embedding of `Alloc2d`: one flat `Alloc1d(n0*n1)`, then row views
`a[i*n1:(i+1)*n1]`. The Go `make` for the outer slice is managed memory, not a
native allocation, so it adds no event. -/
def Alloc2d (env : MallocEnv) (n0 n1 : Nat) : Outcome (List (Buf Cplx)) :=
  (Alloc1d env (n0 * n1)).bind fun a =>
    ⟨.ok ((List.range n0).map fun i => sliceRange a (i * n1) ((i + 1) * n1)), []⟩

/-- Embedding of `Alloc3d`: one flat `Alloc1d(n0*n1*n2)`, then views
`a[i*(n1*n2)+j*n2 : i*(n1*n2)+(j+1)*n2]`. -/
def Alloc3d (env : MallocEnv) (n0 n1 n2 : Nat) :
    Outcome (List (List (Buf Cplx))) :=
  (Alloc1d env (n0 * n1 * n2)).bind fun a =>
    ⟨.ok ((List.range n0).map fun i =>
        (List.range n1).map fun j =>
          sliceRange a (i * (n1 * n2) + j * n2) (i * (n1 * n2) + (j + 1) * n2)),
      []⟩

/-- The Go expression `&x[0]` on a slice: panics with index out of range on an
empty slice, otherwise yields the base address. -/
def Buf.addrFirst {α : Type} (x : Buf α) : Except GoPanic Nat :=
  match x.data with
  | [] => .error .indexOutOfRange
  | _ :: _ => .ok x.base

/-- The Go expression `x[0]` on a managed slice of rows. -/
def firstRow {α : Type} (x : List α) : Except GoPanic α :=
  match x with
  | [] => .error .indexOutOfRange
  | r :: _ => .ok r

/-- Embedding of `Free1d`: `fftw_free(unsafe.Pointer(&x[0]))`. -/
def Free1d (x : Buf Cplx) : Outcome Unit :=
  match x.addrFirst with
  | .error e => ⟨.error e, []⟩
  | .ok p => ⟨.ok (), [.freeCall p]⟩

/-- Embedding of `Free2d`: `fftw_free(unsafe.Pointer(&x[0][0]))`. -/
def Free2d (x : List (Buf Cplx)) : Outcome Unit :=
  match firstRow x with
  | .error e => ⟨.error e, []⟩
  | .ok r =>
      match r.addrFirst with
      | .error e => ⟨.error e, []⟩
      | .ok p => ⟨.ok (), [.freeCall p]⟩

/-- Embedding of `Free3d`: `fftw_free(unsafe.Pointer(&x[0][0][0]))`. -/
def Free3d (x : List (List (Buf Cplx))) : Outcome Unit :=
  match firstRow x with
  | .error e => ⟨.error e, []⟩
  | .ok b =>
      match firstRow b with
      | .error e => ⟨.error e, []⟩
      | .ok r =>
          match r.addrFirst with
          | .error e => ⟨.error e, []⟩
          | .ok p => ⟨.ok (), [.freeCall p]⟩

/-- Embedding of the `Plan` struct: it holds nothing but the raw engine
handle `fftw_p`; there is no state field and no destroyed flag. -/
structure Plan where
  fftw_p : Nat
deriving DecidableEq

/-- The engine side of `fftw_plan_*`: the opaque handle it hands back. -/
structure Engine where
  planHandle : Nat

/-- Embedding of `destroyPlan`: unconditionally calls
`fftw_destroy_plan(p.fftw_p)`. -/
def destroyPlan (p : Plan) : List Event :=
  [.destroyCall p.fftw_p]

/-- Embedding of `newPlan`: wraps the handle and registers `destroyPlan` as a
finalizer via `runtime.SetFinalizer`. -/
def newPlan (h : Nat) : Plan × List Event :=
  (⟨h⟩, [.finalizerSet h])

/-- Embedding of `Plan.Execute`: unconditionally calls
`fftw_execute(p.fftw_p)`; there is no state check and no return value. -/
def Plan.Execute (p : Plan) : Outcome Unit :=
  ⟨.ok (), [.executeCall p.fftw_p]⟩

/-- Embedding of `PlanDft1d`: evaluate `&in[0]`, then `&out[0]`, then forward
`len(in)`, the two addresses, the direction and the flag to
`fftw_plan_dft_1d` and wrap the returned handle. No shape validation occurs
and the handle is wrapped whether or not the engine succeeded. -/
def PlanDft1d (eng : Engine) (inp outp : Buf Cplx) (dir : Int) (flag : Nat) :
    Outcome Plan :=
  match inp.addrFirst with
  | .error e => ⟨.error e, []⟩
  | .ok pin =>
      match outp.addrFirst with
      | .error e => ⟨.error e, []⟩
      | .ok pout =>
          ⟨.ok (newPlan eng.planHandle).1,
            .planCreate .dft1d [inp.data.length] pin pout (some dir) flag ::
              (newPlan eng.planHandle).2⟩

/-- Embedding of `PlanDft2d`: evaluate `&in[0][0]`, then `&out[0][0]`, then
forward `len(in)`, `len(in[0])`, the addresses, direction and flag to
`fftw_plan_dft_2d`. The output's dimensions are never consulted. -/
def PlanDft2d (eng : Engine) (inp outp : List (Buf Cplx)) (dir : Int)
    (flag : Nat) : Outcome Plan :=
  match firstRow inp with
  | .error e => ⟨.error e, []⟩
  | .ok r0 =>
      match r0.addrFirst with
      | .error e => ⟨.error e, []⟩
      | .ok pin =>
          match firstRow outp with
          | .error e => ⟨.error e, []⟩
          | .ok s0 =>
              match s0.addrFirst with
              | .error e => ⟨.error e, []⟩
              | .ok pout =>
                  ⟨.ok (newPlan eng.planHandle).1,
                    .planCreate .dft2d [inp.length, r0.data.length] pin pout
                        (some dir) flag ::
                      (newPlan eng.planHandle).2⟩

/-- Embedding of `PlanDft3d`: evaluate `&in[0][0][0]`, then `&out[0][0][0]`,
then forward `len(in)`, `len(in[0])`, `len(in[0][0])`, the addresses,
direction and flag to `fftw_plan_dft_3d`. -/
def PlanDft3d (eng : Engine) (inp outp : List (List (Buf Cplx))) (dir : Int)
    (flag : Nat) : Outcome Plan :=
  match firstRow inp with
  | .error e => ⟨.error e, []⟩
  | .ok b0 =>
      match firstRow b0 with
      | .error e => ⟨.error e, []⟩
      | .ok r0 =>
          match r0.addrFirst with
          | .error e => ⟨.error e, []⟩
          | .ok pin =>
              match firstRow outp with
              | .error e => ⟨.error e, []⟩
              | .ok c0 =>
                  match firstRow c0 with
                  | .error e => ⟨.error e, []⟩
                  | .ok s0 =>
                      match s0.addrFirst with
                      | .error e => ⟨.error e, []⟩
                      | .ok pout =>
                          ⟨.ok (newPlan eng.planHandle).1,
                            .planCreate .dft3d
                                [inp.length, b0.length, r0.data.length]
                                pin pout (some dir) flag ::
                              (newPlan eng.planHandle).2⟩

/-- Embedding of `PlanDftR2C1d`: evaluate `&in[0]`, then `&out[0]`, then
forward `len(in)` (the real length), the addresses and the flag to
`fftw_plan_dft_r2c_1d`. -/
def PlanDftR2C1d (eng : Engine) (inp : Buf Flt) (outp : Buf Cplx)
    (flag : Nat) : Outcome Plan :=
  match inp.addrFirst with
  | .error e => ⟨.error e, []⟩
  | .ok pin =>
      match outp.addrFirst with
      | .error e => ⟨.error e, []⟩
      | .ok pout =>
          ⟨.ok (newPlan eng.planHandle).1,
            .planCreate .dftR2C1d [inp.data.length] pin pout none flag ::
              (newPlan eng.planHandle).2⟩

/-- Embedding of `PlanDftC2R1d`: evaluate `&in[0]`, then `&out[0]`, then
forward `len(out)` (the real length), the addresses and the flag to
`fftw_plan_dft_c2r_1d`. -/
def PlanDftC2R1d (eng : Engine) (inp : Buf Cplx) (outp : Buf Flt)
    (flag : Nat) : Outcome Plan :=
  match inp.addrFirst with
  | .error e => ⟨.error e, []⟩
  | .ok pin =>
      match outp.addrFirst with
      | .error e => ⟨.error e, []⟩
      | .ok pout =>
          ⟨.ok (newPlan eng.planHandle).1,
            .planCreate .dftC2R1d [outp.data.length] pin pout none flag ::
              (newPlan eng.planHandle).2⟩

/-- Embedding of `Dft1d`: create the plan, execute it once; no explicit
release. -/
def Dft1d (eng : Engine) (inp outp : Buf Cplx) (dir : Int) (flag : Nat) :
    Outcome Unit :=
  (PlanDft1d eng inp outp dir flag).bind fun p => p.Execute

/-- Embedding of `Dft2d`: create the plan, execute it once; no explicit
release. -/
def Dft2d (eng : Engine) (inp outp : List (Buf Cplx)) (dir : Int)
    (flag : Nat) : Outcome Unit :=
  (PlanDft2d eng inp outp dir flag).bind fun p => p.Execute

/-- Embedding of `Dft3d`: create the plan, execute it once; no explicit
release. -/
def Dft3d (eng : Engine) (inp outp : List (List (Buf Cplx))) (dir : Int)
    (flag : Nat) : Outcome Unit :=
  (PlanDft3d eng inp outp dir flag).bind fun p => p.Execute

/-- Client scenario for a destroyed plan: create a plan for handle `h`,
destroy it, then call `Execute` on the (now invalid) handle. -/
def executeOnDestroyed (h : Nat) : Outcome Unit :=
  ⟨(Plan.Execute (newPlan h).1).result,
    (newPlan h).2 ++ destroyPlan (newPlan h).1 ++
      (Plan.Execute (newPlan h).1).trace⟩

/-- True on an `fftw_destroy_plan` event. -/
def Event.isDestroy : Event → Bool
  | .destroyCall _ => true
  | _ => false

/-- True on an `fftw_execute` event. -/
def Event.isExecute : Event → Bool
  | .executeCall _ => true
  | _ => false

/-- Modelled from the external fftw3.h header: `FFTW_FORWARD`. -/
def FFTW_FORWARD : Int := -1

/-- Modelled from the external fftw3.h header: `FFTW_BACKWARD`. -/
def FFTW_BACKWARD : Int := 1

/-- Modelled from the external fftw3.h header: `FFTW_ESTIMATE` (`1 << 6`). -/
def FFTW_ESTIMATE : Nat := 64

/-- Modelled from the external fftw3.h header: `FFTW_MEASURE` (`0`). -/
def FFTW_MEASURE : Nat := 0

/-- The four exported package-level `var` declarations of the source
(`var Forward Direction = C.FFTW_FORWARD`, and so on), as one mutable
package-state record: Go's `var` makes each of them an assignable variable,
not a compile-time constant. -/
structure PkgVars where
  Forward : Int
  Backward : Int
  Estimate : Nat
  Measure : Nat
deriving DecidableEq

/-- The package state right after initialization: each variable holds the
engine's own enumeration value. -/
def pkgInit : PkgVars :=
  ⟨FFTW_FORWARD, FFTW_BACKWARD, FFTW_ESTIMATE, FFTW_MEASURE⟩

/-- Semantics of the Go assignment statement `fftw.Forward = v`, which the
language accepts because `Forward` is an exported `var`, not a `const`. -/
def assignForward (s : PkgVars) (v : Int) : PkgVars :=
  { s with Forward := v }

/-- Modelled from the spec: the external engine's unnormalized discrete
Fourier transform of length `N` with twiddle base `ζ`, output index `k`
holding the sum over `j` of `x j * ζ ^ (j*k)`. The engine's forward
transform is this with `ζ` the inverse of a primitive `N`-th root of unity
(`exp(-2πi/N)`), the backward transform is this with the primitive root
itself (`exp(2πi/N)`); the transform mathematics lives entirely in the
external engine, not in this repository's source. -/
def engineDft {K : Type} [Field K] (N : Nat) (ζ : K) (x : Fin N → K) :
    Fin N → K :=
  fun k => ∑ j : Fin N, x j * ζ ^ ((j : Nat) * (k : Nat))

/-- Allocator oracle for witnesses: the first `fftw_malloc` succeeds at byte
address 32 and hands out visibly non-zero junk memory. -/
def envOkW : MallocEnv :=
  ⟨.ok 32, .error "unused", fun i => ((i : Int) + 1, (i : Int) + 2)⟩

/-- Allocator oracle for witnesses: both `fftw_malloc` attempts fail. -/
def envFailW : MallocEnv :=
  ⟨.error "cannot allocate memory", .error "cannot allocate memory",
    fun _ => (1, 1)⟩

/- ### Helper lemmas -/

theorem take_set_succ {α : Type} (c : α) :
    ∀ (s : List α) (i : Nat), i < s.length →
      (s.set i c).take (i + 1) = s.take i ++ [c] := by
  intro s
  induction s with
  | nil => intro i h; simp at h
  | cons a t ih =>
      intro i h
      cases i with
      | zero => simp
      | succ j =>
          have hj : j < t.length := Nat.lt_of_succ_lt_succ h
          simp only [List.set, List.take, List.cons_append]
          rw [ih j hj]

theorem zeroFrom_eq :
    ∀ (fuel : Nat) (s : List Cplx) (i : Nat), s.length = i + fuel →
      zeroFrom s i fuel = s.take i ++ List.replicate fuel 0 := by
  intro fuel
  induction fuel with
  | zero =>
      intro s i h
      simp [zeroFrom, List.take_of_length_le (show s.length ≤ i by omega)]
  | succ f ih =>
      intro s i h
      have hi : i < s.length := by omega
      rw [zeroFrom, ih (s.set i 0) (i + 1) (by rw [List.length_set]; omega),
        take_set_succ 0 s i hi, List.append_assoc]
      rfl

/-- The explicit zeroing loop turns any slice into all zeroes. -/
theorem zeroInit_eq (s : List Cplx) :
    zeroInit s = List.replicate s.length 0 := by
  simpa [zeroInit] using zeroFrom_eq s.length s 0 (by omega)

theorem rawSlice_length (junk : Nat → Cplx) (n : Nat) :
    (rawSlice junk n).length = n := by
  simp [rawSlice]

/-- Whenever `Alloc1d` returns, the buffer is `n` zeroes over one of the two
addresses the allocator handed out. -/
theorem alloc1d_ok_data (env : MallocEnv) (n : Nat) (buf : Buf Cplx)
    (h : (Alloc1d env n).result = .ok buf) :
    buf.data = List.replicate n 0 := by
  unfold Alloc1d at h
  cases h1 : env.attempt1 with
  | ok p =>
      rw [h1] at h
      cases h
      simp [zeroInit_eq, rawSlice_length]
  | error e1 =>
      rw [h1] at h
      cases h2 : env.attempt2 with
      | ok p =>
          rw [h2] at h
          cases h
          simp [zeroInit_eq, rawSlice_length]
      | error e2 =>
          rw [h2] at h
          cases h

/- ### C1 -/

/-- C1: for every `n ≥ 0` and every allocator behavior (including arbitrary
junk contents of the returned memory, quantified through `env`), a buffer
returned by `Alloc1d(n)` has length `n` and every element equal to zero; the
zeroing is the layer's own element-by-element loop (`zeroInit`), so it holds
no matter what the native allocator put in the memory. -/
theorem alloc1d_zero_initialized (env : MallocEnv) (n : Nat) (buf : Buf Cplx)
    (h : (Alloc1d env n).result = .ok buf) :
    buf.data.length = n ∧ ∀ i, i < n → buf.data.getD i (1, 1) = 0 := by
  have hd := alloc1d_ok_data env n buf h
  refine ⟨by rw [hd, List.length_replicate], ?_⟩
  intro i hi
  rw [hd, List.getD_eq_getElem?_getD]
  simp [List.getElem?_replicate, hi]

/-- Witness for C1: a concrete allocation of 3 elements over junk memory
returns three zeroes at the allocated address. -/
theorem alloc1d_zero_initialized_witness :
    (Alloc1d envOkW 3).result = .ok ⟨32, List.replicate 3 0⟩ ∧
    (⟨32, List.replicate 3 0⟩ : Buf Cplx).data.length = 3 ∧
    (⟨32, List.replicate 3 0⟩ : Buf Cplx).data.getD 2 (1, 1) = 0 :=
  ⟨by decide,
    (alloc1d_zero_initialized envOkW 3 ⟨32, List.replicate 3 0⟩ (by decide)).1,
    (alloc1d_zero_initialized envOkW 3 ⟨32, List.replicate 3 0⟩ (by decide)).2
      2 (by decide)⟩

/- ### C2 -/

/-- C2: if the first native allocation attempt fails, `Alloc1d` runs exactly
one garbage-collection pass and exactly one retry (the trace is precisely
malloc, GC, malloc); a successful retry returns the zeroed buffer, and a
failed retry ends in the explicit panic carrying the descriptive message —
the `.ok` branch of the result is the only non-panicking outcome, so no
error value is ever handed back to the caller. -/
theorem alloc1d_retry_and_fatal (env : MallocEnv) (n : Nat) (e1 : String)
    (h1 : env.attempt1 = .error e1) :
    (Alloc1d env n).trace =
      [.mallocCall (16 * n), .gcRun, .mallocCall (16 * n)] ∧
    (∀ p, env.attempt2 = .ok p →
        (Alloc1d env n).result = .ok ⟨p, List.replicate n 0⟩) ∧
    (∀ e2, env.attempt2 = .error e2 →
        (Alloc1d env n).result =
          .error (.explicitAbort (fftwMallocMsg n e2))) := by
  unfold Alloc1d
  rw [h1]
  cases h2 : env.attempt2 with
  | ok p =>
      refine ⟨rfl, ?_, ?_⟩
      · intro q hq
        cases hq
        simp [zeroInit_eq, rawSlice_length]
      · intro e2 he2
        cases he2
  | error e2 =>
      refine ⟨rfl, ?_, ?_⟩
      · intro q hq
        cases hq
      · intro f hf
        cases hf
        rfl

/-- Witness for C2: with both attempts failing, the concrete trace is
malloc, GC, malloc, and the outcome is the descriptive panic. -/
theorem alloc1d_retry_and_fatal_witness :
    envFailW.attempt1 = .error "cannot allocate memory" ∧
    (Alloc1d envFailW 2).trace = [.mallocCall 32, .gcRun, .mallocCall 32] ∧
    (Alloc1d envFailW 2).result =
      .error (.explicitAbort (fftwMallocMsg 2 "cannot allocate memory")) :=
  ⟨rfl,
    (alloc1d_retry_and_fatal envFailW 2 "cannot allocate memory" rfl).1,
    (alloc1d_retry_and_fatal envFailW 2 "cannot allocate memory" rfl).2.2
      "cannot allocate memory" rfl⟩

/- ### C3 -/

theorem getD_map_range {α : Type} (n i : Nat) (f : Nat → α) (d : α)
    (h : i < n) : ((List.range n).map f).getD i d = f i := by
  rw [List.getD_eq_getElem?_getD, List.getElem?_map, List.getElem?_range h]
  rfl

theorem sliceRange_data_getD (a : Buf Cplx) (lo len j : Nat) (d : Cplx)
    (hj : j < len) :
    (sliceRange a lo (lo + len)).data.getD j d = a.data.getD (lo + j) d := by
  show ((a.data.drop lo).take (lo + len - lo)).getD j d = _
  rw [show lo + len - lo = len from by omega, List.getD_eq_getElem?_getD,
    List.getElem?_take, if_pos hj, List.getElem?_drop,
    List.getD_eq_getElem?_getD]

theorem sliceRange_data_length (a : Buf Cplx) (lo len : Nat)
    (h : lo + len ≤ a.data.length) :
    (sliceRange a lo (lo + len)).data.length = len := by
  show ((a.data.drop lo).take (lo + len - lo)).length = len
  rw [List.length_take, List.length_drop]
  omega

theorem alloc2d_ok (env : MallocEnv) (n0 n1 : Nat) (a : Buf Cplx)
    (rows : List (Buf Cplx)) (ha : (Alloc1d env (n0 * n1)).result = .ok a)
    (hr : (Alloc2d env n0 n1).result = .ok rows) :
    rows = (List.range n0).map fun i => sliceRange a (i * n1) ((i + 1) * n1) := by
  unfold Alloc2d Outcome.bind at hr
  rw [ha] at hr
  cases hr
  rfl

theorem alloc2d_trace (env : MallocEnv) (n0 n1 : Nat) :
    (Alloc2d env n0 n1).trace = (Alloc1d env (n0 * n1)).trace := by
  unfold Alloc2d Outcome.bind
  cases h : (Alloc1d env (n0 * n1)).result <;> simp

theorem alloc3d_ok (env : MallocEnv) (n0 n1 n2 : Nat) (a : Buf Cplx)
    (bs : List (List (Buf Cplx)))
    (ha : (Alloc1d env (n0 * n1 * n2)).result = .ok a)
    (hb : (Alloc3d env n0 n1 n2).result = .ok bs) :
    bs = (List.range n0).map fun i => (List.range n1).map fun j =>
      sliceRange a (i * (n1 * n2) + j * n2) (i * (n1 * n2) + (j + 1) * n2) := by
  unfold Alloc3d Outcome.bind at hb
  rw [ha] at hb
  cases hb
  rfl

theorem alloc3d_trace (env : MallocEnv) (n0 n1 n2 : Nat) :
    (Alloc3d env n0 n1 n2).trace = (Alloc1d env (n0 * n1 * n2)).trace := by
  unfold Alloc3d Outcome.bind
  cases h : (Alloc1d env (n0 * n1 * n2)).result <;> simp

/-- C3: `Alloc2d`/`Alloc3d` make exactly the native calls of the single
`Alloc1d` on the product of the dimensions (no further native allocation),
and the rows they return are stride views into that single flat buffer:
row `i` of a 2d view starts at byte offset `16*(i*n1)` of the flat base and
its element `j` is the flat element `i*n1 + j`; row `(i,j)` of a 3d view
starts at offset `16*(i*n1*n2 + j*n2)` and its element `k` is the flat
element `i*n1*n2 + j*n2 + k`. -/
theorem alloc_views_row_major (env : MallocEnv) (n0 n1 n2 : Nat) :
    (Alloc2d env n0 n1).trace = (Alloc1d env (n0 * n1)).trace ∧
    (Alloc3d env n0 n1 n2).trace = (Alloc1d env (n0 * n1 * n2)).trace ∧
    (∀ a rows, (Alloc1d env (n0 * n1)).result = .ok a →
      (Alloc2d env n0 n1).result = .ok rows →
      rows.length = n0 ∧
      ∀ i j, i < n0 → j < n1 →
        (rows.getD i ⟨0, []⟩).base = a.base + 16 * (i * n1) ∧
        (rows.getD i ⟨0, []⟩).data.length = n1 ∧
        (rows.getD i ⟨0, []⟩).data.getD j (1, 1) =
          a.data.getD (i * n1 + j) (1, 1)) ∧
    (∀ a bs, (Alloc1d env (n0 * n1 * n2)).result = .ok a →
      (Alloc3d env n0 n1 n2).result = .ok bs →
      bs.length = n0 ∧
      ∀ i j k, i < n0 → j < n1 → k < n2 →
        ((bs.getD i []).getD j ⟨0, []⟩).base =
          a.base + 16 * (i * n1 * n2 + j * n2) ∧
        ((bs.getD i []).getD j ⟨0, []⟩).data.length = n2 ∧
        ((bs.getD i []).getD j ⟨0, []⟩).data.getD k (1, 1) =
          a.data.getD (i * n1 * n2 + j * n2 + k) (1, 1)) := by
  refine ⟨alloc2d_trace env n0 n1, alloc3d_trace env n0 n1 n2, ?_, ?_⟩
  · intro a rows ha hr
    obtain rfl := alloc2d_ok env n0 n1 a rows ha hr
    have hal : a.data.length = n0 * n1 := by
      rw [alloc1d_ok_data env (n0 * n1) a ha, List.length_replicate]
    refine ⟨by simp, ?_⟩
    intro i j hi hj
    rw [getD_map_range n0 i _ _ hi,
      show (i + 1) * n1 = i * n1 + n1 from by ring]
    refine ⟨rfl, ?_, sliceRange_data_getD a (i * n1) n1 j (1, 1) hj⟩
    refine sliceRange_data_length a (i * n1) n1 ?_
    rw [hal]
    have h1 : (i + 1) * n1 ≤ n0 * n1 :=
      Nat.mul_le_mul_right n1 (Nat.succ_le_of_lt hi)
    have h2 : (i + 1) * n1 = i * n1 + n1 := by ring
    omega
  · intro a bs ha hb
    obtain rfl := alloc3d_ok env n0 n1 n2 a bs ha hb
    have hal : a.data.length = n0 * n1 * n2 := by
      rw [alloc1d_ok_data env (n0 * n1 * n2) a ha, List.length_replicate]
    refine ⟨by simp, ?_⟩
    intro i j k hi hj hk
    rw [getD_map_range n0 i _ _ hi, getD_map_range n1 j _ _ hj,
      show i * (n1 * n2) + (j + 1) * n2 = (i * (n1 * n2) + j * n2) + n2 from
        by ring]
    have e1 : (j + 1) * n2 ≤ n1 * n2 :=
      Nat.mul_le_mul_right n2 (Nat.succ_le_of_lt hj)
    have e2 : (i + 1) * (n1 * n2) ≤ n0 * (n1 * n2) :=
      Nat.mul_le_mul_right (n1 * n2) (Nat.succ_le_of_lt hi)
    have e3 : (j + 1) * n2 = j * n2 + n2 := by ring
    have e4 : (i + 1) * (n1 * n2) = i * (n1 * n2) + n1 * n2 := by ring
    have e5 : n0 * (n1 * n2) = n0 * n1 * n2 := by ring
    have e6 : i * (n1 * n2) = i * n1 * n2 := by ring
    refine ⟨by rw [← e6]; rfl, ?_, ?_⟩
    · refine sliceRange_data_length a (i * (n1 * n2) + j * n2) n2 ?_
      rw [hal]
      omega
    · rw [sliceRange_data_getD a (i * (n1 * n2) + j * n2) n2 k (1, 1) hk, e6]

/-- Witness for C3: 2x2 and 2x2x2 allocations over a concrete allocator;
trace equality and a sample element identity are checked on the values. -/
theorem alloc_views_row_major_witness :
    (Alloc1d envOkW 4).result = .ok ⟨32, List.replicate 4 0⟩ ∧
    (Alloc2d envOkW 2 2).result =
      .ok [⟨32, List.replicate 2 0⟩, ⟨64, List.replicate 2 0⟩] ∧
    (Alloc2d envOkW 2 2).trace = (Alloc1d envOkW 4).trace ∧
    (([⟨32, List.replicate 2 0⟩, ⟨64, List.replicate 2 0⟩] :
        List (Buf Cplx)).getD 1 ⟨0, []⟩).data.getD 1 (1, 1) =
      (⟨32, List.replicate 4 0⟩ : Buf Cplx).data.getD 3 (1, 1) :=
  ⟨by decide, by decide, (alloc_views_row_major envOkW 2 2 2).1,
    (((alloc_views_row_major envOkW 2 2 2).2.2.1 ⟨32, List.replicate 4 0⟩
          [⟨32, List.replicate 2 0⟩, ⟨64, List.replicate 2 0⟩]
          (by decide) (by decide)).2 1 1 (by decide) (by decide)).2.2⟩

/- ### C4 -/

theorem addrFirst_ok {α : Type} (x : Buf α) (h : x.data ≠ []) :
    x.addrFirst = .ok x.base := by
  unfold Buf.addrFirst
  cases hd : x.data with
  | nil => exact absurd hd h
  | cons c t => rfl

theorem rows_head {α : Type} (n : Nat) (h : 1 ≤ n) (f : Nat → α) :
    ∃ t, (List.range n).map f = f 0 :: t := by
  obtain ⟨m, rfl⟩ : ∃ m, n = m + 1 := ⟨n - 1, by omega⟩
  refine ⟨(List.map Nat.succ (List.range m)).map f, ?_⟩
  rw [List.range_succ_eq_map]
  rfl

theorem free2d_cons (r : Buf Cplx) (t : List (Buf Cplx)) (h : r.data ≠ []) :
    Free2d (r :: t) = ⟨.ok (), [.freeCall r.base]⟩ := by
  simp [Free2d, firstRow, addrFirst_ok r h]

theorem free3d_cons (r : Buf Cplx) (t' : List (Buf Cplx))
    (t : List (List (Buf Cplx))) (h : r.data ≠ []) :
    Free3d ((r :: t') :: t) = ⟨.ok (), [.freeCall r.base]⟩ := by
  simp [Free3d, firstRow, addrFirst_ok r h]

/-- C4: on views built by `Alloc2d`/`Alloc3d` with every dimension at least
one, `Free2d` frees exactly the address of `x[0][0]` and `Free3d` exactly the
address of `x[0][0][0]`, and that address is the first element's address of
the flat buffer `Alloc1d` produced. -/
theorem free_views_resolve_flat_base (env : MallocEnv) (n0 n1 n2 : Nat)
    (h0 : 1 ≤ n0) (h1 : 1 ≤ n1) (h2 : 1 ≤ n2)
    (a : Buf Cplx) (rows : List (Buf Cplx))
    (ha : (Alloc1d env (n0 * n1)).result = .ok a)
    (hr : (Alloc2d env n0 n1).result = .ok rows)
    (a3 : Buf Cplx) (bs : List (List (Buf Cplx)))
    (ha3 : (Alloc1d env (n0 * n1 * n2)).result = .ok a3)
    (hb : (Alloc3d env n0 n1 n2).result = .ok bs) :
    Free2d rows = ⟨.ok (), [.freeCall a.base]⟩ ∧
    Free3d bs = ⟨.ok (), [.freeCall a3.base]⟩ := by
  constructor
  · obtain rfl := alloc2d_ok env n0 n1 a rows ha hr
    have hlen : a.data.length = n0 * n1 := by
      rw [alloc1d_ok_data env (n0 * n1) a ha, List.length_replicate]
    obtain ⟨t, ht⟩ :=
      rows_head n0 h0 (fun i => sliceRange a (i * n1) ((i + 1) * n1))
    have hne : (sliceRange a (0 * n1) ((0 + 1) * n1)).data ≠ [] := by
      have hbound : 0 * n1 + n1 ≤ a.data.length := by
        rw [hlen]
        have := Nat.mul_le_mul_right n1 h0
        omega
      have hl := sliceRange_data_length a (0 * n1) n1 hbound
      rw [show (0 + 1) * n1 = 0 * n1 + n1 from by ring]
      intro hemp
      rw [hemp] at hl
      simp at hl
      omega
    rw [ht, free2d_cons _ _ hne]
    simp [sliceRange]
  · obtain rfl := alloc3d_ok env n0 n1 n2 a3 bs ha3 hb
    have hlen : a3.data.length = n0 * n1 * n2 := by
      rw [alloc1d_ok_data env (n0 * n1 * n2) a3 ha3, List.length_replicate]
    obtain ⟨t, ht⟩ := rows_head n0 h0 (fun i =>
      (List.range n1).map fun j =>
        sliceRange a3 (i * (n1 * n2) + j * n2) (i * (n1 * n2) + (j + 1) * n2))
    obtain ⟨t', ht'⟩ := rows_head n1 h1 (fun j =>
      sliceRange a3 (0 * (n1 * n2) + j * n2) (0 * (n1 * n2) + (j + 1) * n2))
    have hne :
        (sliceRange a3 (0 * (n1 * n2) + 0 * n2)
          (0 * (n1 * n2) + (0 + 1) * n2)).data ≠ [] := by
      have hbound : (0 * (n1 * n2) + 0 * n2) + n2 ≤ a3.data.length := by
        rw [hlen]
        have hm : 1 * 1 ≤ n0 * n1 := Nat.mul_le_mul h0 h1
        have := Nat.mul_le_mul_right n2 hm
        have e : 1 * 1 * n2 = n2 := by ring
        omega
      have hl := sliceRange_data_length a3 (0 * (n1 * n2) + 0 * n2) n2 hbound
      rw [show 0 * (n1 * n2) + (0 + 1) * n2 = (0 * (n1 * n2) + 0 * n2) + n2
        from by ring]
      intro hemp
      rw [hemp] at hl
      simp at hl
      omega
    rw [ht, ht', free3d_cons _ _ _ hne]
    simp [sliceRange]

/-- Witness for C4: on concrete 2x2 and 2x2x2 allocations, freeing the views
frees exactly the flat buffer's base address (byte 32). -/
theorem free_views_resolve_flat_base_witness :
    (Alloc2d envOkW 2 2).result =
      .ok [⟨32, List.replicate 2 0⟩, ⟨64, List.replicate 2 0⟩] ∧
    (Alloc3d envOkW 2 2 2).result =
      .ok [[⟨32, List.replicate 2 0⟩, ⟨64, List.replicate 2 0⟩],
        [⟨96, List.replicate 2 0⟩, ⟨128, List.replicate 2 0⟩]] ∧
    Free2d [⟨32, List.replicate 2 0⟩, ⟨64, List.replicate 2 0⟩] =
      ⟨.ok (), [.freeCall (⟨32, List.replicate 4 0⟩ : Buf Cplx).base]⟩ ∧
    Free3d [[⟨32, List.replicate 2 0⟩, ⟨64, List.replicate 2 0⟩],
        [⟨96, List.replicate 2 0⟩, ⟨128, List.replicate 2 0⟩]] =
      ⟨.ok (), [.freeCall (⟨32, List.replicate 8 0⟩ : Buf Cplx).base]⟩ :=
  ⟨by decide, by decide,
    (free_views_resolve_flat_base envOkW 2 2 2 (by decide) (by decide)
        (by decide) ⟨32, List.replicate 4 0⟩
        [⟨32, List.replicate 2 0⟩, ⟨64, List.replicate 2 0⟩]
        (by decide) (by decide) ⟨32, List.replicate 8 0⟩
        [[⟨32, List.replicate 2 0⟩, ⟨64, List.replicate 2 0⟩],
          [⟨96, List.replicate 2 0⟩, ⟨128, List.replicate 2 0⟩]]
        (by decide) (by decide)).1,
    (free_views_resolve_flat_base envOkW 2 2 2 (by decide) (by decide)
        (by decide) ⟨32, List.replicate 4 0⟩
        [⟨32, List.replicate 2 0⟩, ⟨64, List.replicate 2 0⟩]
        (by decide) (by decide) ⟨32, List.replicate 8 0⟩
        [[⟨32, List.replicate 2 0⟩, ⟨64, List.replicate 2 0⟩],
          [⟨96, List.replicate 2 0⟩, ⟨128, List.replicate 2 0⟩]]
        (by decide) (by decide)).2⟩

/- ### C5 -/

theorem planDft1d_shape (eng : Engine) (inp outp : Buf Cplx) (dir : Int)
    (flag : Nat) :
    PlanDft1d eng inp outp dir flag = ⟨.error .indexOutOfRange, []⟩ ∨
    ∃ h pc, PlanDft1d eng inp outp dir flag =
        ⟨.ok ⟨h⟩, [pc, .finalizerSet h]⟩ ∧
      Event.isDestroy pc = false ∧ Event.isExecute pc = false := by
  unfold PlanDft1d Buf.addrFirst newPlan
  cases hi : inp.data with
  | nil => exact Or.inl rfl
  | cons c t =>
      cases ho : outp.data with
      | nil => exact Or.inl rfl
      | cons c' t' => exact Or.inr ⟨eng.planHandle, _, rfl, rfl, rfl⟩

theorem planDft2d_shape (eng : Engine) (inp outp : List (Buf Cplx))
    (dir : Int) (flag : Nat) :
    PlanDft2d eng inp outp dir flag = ⟨.error .indexOutOfRange, []⟩ ∨
    ∃ h pc, PlanDft2d eng inp outp dir flag =
        ⟨.ok ⟨h⟩, [pc, .finalizerSet h]⟩ ∧
      Event.isDestroy pc = false ∧ Event.isExecute pc = false := by
  unfold PlanDft2d firstRow Buf.addrFirst newPlan
  cases inp with
  | nil => exact Or.inl rfl
  | cons r0 t =>
      obtain ⟨rb, rd⟩ := r0
      cases rd with
      | nil => exact Or.inl rfl
      | cons c u =>
          cases outp with
          | nil => exact Or.inl rfl
          | cons s0 t' =>
              obtain ⟨sb, sd⟩ := s0
              cases sd with
              | nil => exact Or.inl rfl
              | cons c' u' => exact Or.inr ⟨eng.planHandle, _, rfl, rfl, rfl⟩

theorem planDft3d_shape (eng : Engine) (inp outp : List (List (Buf Cplx)))
    (dir : Int) (flag : Nat) :
    PlanDft3d eng inp outp dir flag = ⟨.error .indexOutOfRange, []⟩ ∨
    ∃ h pc, PlanDft3d eng inp outp dir flag =
        ⟨.ok ⟨h⟩, [pc, .finalizerSet h]⟩ ∧
      Event.isDestroy pc = false ∧ Event.isExecute pc = false := by
  unfold PlanDft3d firstRow Buf.addrFirst newPlan
  cases inp with
  | nil => exact Or.inl rfl
  | cons b0 t =>
      cases b0 with
      | nil => exact Or.inl rfl
      | cons r0 u =>
          obtain ⟨rb, rd⟩ := r0
          cases rd with
          | nil => exact Or.inl rfl
          | cons c v =>
              cases outp with
              | nil => exact Or.inl rfl
              | cons c0 t' =>
                  cases c0 with
                  | nil => exact Or.inl rfl
                  | cons s0 u' =>
                      obtain ⟨sb, sd⟩ := s0
                      cases sd with
                      | nil => exact Or.inl rfl
                      | cons c' v' =>
                          exact Or.inr ⟨eng.planHandle, _, rfl, rfl, rfl⟩

theorem isDestroy_finalizerSet (h : Nat) :
    Event.isDestroy (.finalizerSet h) = false := rfl

theorem isDestroy_executeCall (h : Nat) :
    Event.isDestroy (.executeCall h) = false := rfl

theorem isExecute_finalizerSet (h : Nat) :
    Event.isExecute (.finalizerSet h) = false := rfl

theorem isExecute_executeCall (h : Nat) :
    Event.isExecute (.executeCall h) = true := rfl

theorem bind_execute_facts (o : Outcome Plan)
    (hsh : o = ⟨.error .indexOutOfRange, []⟩ ∨
      ∃ h pc, o = ⟨.ok ⟨h⟩, [pc, .finalizerSet h]⟩ ∧
        Event.isDestroy pc = false ∧ Event.isExecute pc = false) :
    (o.bind Plan.Execute).trace.countP Event.isDestroy = 0 ∧
    ∀ p, o.result = .ok p →
      (o.bind Plan.Execute).trace = o.trace ++ [.executeCall p.fftw_p] ∧
      Event.finalizerSet p.fftw_p ∈ o.trace ∧
      (o.bind Plan.Execute).trace.countP Event.isExecute = 1 := by
  rcases hsh with rfl | ⟨h, pc, rfl, hd, he⟩
  · refine ⟨by simp [Outcome.bind], ?_⟩
    intro p hp
    cases hp
  · refine ⟨?_, ?_⟩
    · simp [Outcome.bind, Plan.Execute, List.countP_cons, hd,
        isDestroy_finalizerSet, isDestroy_executeCall]
    · intro p hp
      cases hp
      refine ⟨rfl, by simp, ?_⟩
      simp [Outcome.bind, Plan.Execute, List.countP_cons, he,
        isExecute_finalizerSet, isExecute_executeCall]

/-- C5: each one-shot `Dft1d`/`Dft2d`/`Dft3d` equals its plan constructor
followed by exactly one `Execute` on the returned plan: same outcome, trace
extended by exactly one `fftw_execute` call; the trace contains no
`fftw_destroy_plan` call (no explicit release), and on every successful
creation the finalizer registration performed by `newPlan` is in the trace. -/
theorem dft_oneshot_plan_execute (eng : Engine) (inp outp : Buf Cplx)
    (inp2 outp2 : List (Buf Cplx)) (inp3 outp3 : List (List (Buf Cplx)))
    (dir : Int) (flag : Nat) :
    Dft1d eng inp outp dir flag =
      (PlanDft1d eng inp outp dir flag).bind Plan.Execute ∧
    Dft2d eng inp2 outp2 dir flag =
      (PlanDft2d eng inp2 outp2 dir flag).bind Plan.Execute ∧
    Dft3d eng inp3 outp3 dir flag =
      (PlanDft3d eng inp3 outp3 dir flag).bind Plan.Execute ∧
    (Dft1d eng inp outp dir flag).trace.countP Event.isDestroy = 0 ∧
    (Dft2d eng inp2 outp2 dir flag).trace.countP Event.isDestroy = 0 ∧
    (Dft3d eng inp3 outp3 dir flag).trace.countP Event.isDestroy = 0 ∧
    (∀ p, (PlanDft1d eng inp outp dir flag).result = .ok p →
      (Dft1d eng inp outp dir flag).trace =
        (PlanDft1d eng inp outp dir flag).trace ++ [.executeCall p.fftw_p] ∧
      Event.finalizerSet p.fftw_p ∈ (PlanDft1d eng inp outp dir flag).trace ∧
      (Dft1d eng inp outp dir flag).trace.countP Event.isExecute = 1) ∧
    (∀ p, (PlanDft2d eng inp2 outp2 dir flag).result = .ok p →
      (Dft2d eng inp2 outp2 dir flag).trace =
        (PlanDft2d eng inp2 outp2 dir flag).trace ++ [.executeCall p.fftw_p] ∧
      Event.finalizerSet p.fftw_p ∈ (PlanDft2d eng inp2 outp2 dir flag).trace ∧
      (Dft2d eng inp2 outp2 dir flag).trace.countP Event.isExecute = 1) ∧
    (∀ p, (PlanDft3d eng inp3 outp3 dir flag).result = .ok p →
      (Dft3d eng inp3 outp3 dir flag).trace =
        (PlanDft3d eng inp3 outp3 dir flag).trace ++ [.executeCall p.fftw_p] ∧
      Event.finalizerSet p.fftw_p ∈ (PlanDft3d eng inp3 outp3 dir flag).trace ∧
      (Dft3d eng inp3 outp3 dir flag).trace.countP Event.isExecute = 1) := by
  obtain ⟨d1, f1⟩ :=
    bind_execute_facts _ (planDft1d_shape eng inp outp dir flag)
  obtain ⟨d2, f2⟩ :=
    bind_execute_facts _ (planDft2d_shape eng inp2 outp2 dir flag)
  obtain ⟨d3, f3⟩ :=
    bind_execute_facts _ (planDft3d_shape eng inp3 outp3 dir flag)
  exact ⟨rfl, rfl, rfl, d1, d2, d3, f1, f2, f3⟩

/-- Witness for C5: a concrete one-element 1d transform with handle 7 is the
plan constructor plus exactly one execute, with no destroy call. -/
theorem dft_oneshot_plan_execute_witness :
    Dft1d ⟨7⟩ ⟨32, [0]⟩ ⟨64, [0]⟩ (-1) 64 =
      (PlanDft1d ⟨7⟩ ⟨32, [0]⟩ ⟨64, [0]⟩ (-1) 64).bind Plan.Execute ∧
    (Dft1d ⟨7⟩ ⟨32, [0]⟩ ⟨64, [0]⟩ (-1) 64).trace.countP Event.isDestroy = 0 ∧
    (PlanDft1d ⟨7⟩ ⟨32, [0]⟩ ⟨64, [0]⟩ (-1) 64).result = .ok ⟨7⟩ ∧
    (Dft1d ⟨7⟩ ⟨32, [0]⟩ ⟨64, [0]⟩ (-1) 64).trace =
      (PlanDft1d ⟨7⟩ ⟨32, [0]⟩ ⟨64, [0]⟩ (-1) 64).trace ++
        [.executeCall (Plan.mk 7).fftw_p] ∧
    (Dft1d ⟨7⟩ ⟨32, [0]⟩ ⟨64, [0]⟩ (-1) 64).trace.countP Event.isExecute = 1 :=
  ⟨(dft_oneshot_plan_execute ⟨7⟩ ⟨32, [0]⟩ ⟨64, [0]⟩ [⟨32, [0]⟩] [⟨64, [0]⟩]
      [[⟨32, [0]⟩]] [[⟨64, [0]⟩]] (-1) 64).1,
    (dft_oneshot_plan_execute ⟨7⟩ ⟨32, [0]⟩ ⟨64, [0]⟩ [⟨32, [0]⟩] [⟨64, [0]⟩]
      [[⟨32, [0]⟩]] [[⟨64, [0]⟩]] (-1) 64).2.2.2.1,
    by decide,
    ((dft_oneshot_plan_execute ⟨7⟩ ⟨32, [0]⟩ ⟨64, [0]⟩ [⟨32, [0]⟩] [⟨64, [0]⟩]
      [[⟨32, [0]⟩]] [[⟨64, [0]⟩]] (-1) 64).2.2.2.2.2.2.1 ⟨7⟩ (by decide)).1,
    ((dft_oneshot_plan_execute ⟨7⟩ ⟨32, [0]⟩ ⟨64, [0]⟩ [⟨32, [0]⟩] [⟨64, [0]⟩]
      [[⟨32, [0]⟩]] [[⟨64, [0]⟩]] (-1) 64).2.2.2.2.2.2.1 ⟨7⟩
      (by decide)).2.2⟩

/- ### C6 -/

/-- C6: executing a plan that has already been destroyed is not surfaced as
an error by this layer: the `Plan` value carries no state besides the raw
handle, `Execute` performs no check and has no error channel, and the call
"succeeds", unconditionally forwarding the stale handle to the engine. The
concrete scenario creates plan handle 5, destroys it, then calls `Execute`:
the outcome is `.ok` with the stale `fftw_execute` call in the trace. -/
theorem execute_on_destroyed_plan_unchecked :
    executeOnDestroyed 5 =
      ⟨.ok (), [.finalizerSet 5, .destroyCall 5, .executeCall 5]⟩ := by
  decide

/- ### C7 -/

/-- Counterexample to C7 as stated: on a zero-length dimension the plan
constructor forwards nothing to the engine and returns no handle — it panics
with index out of range first (error result, empty trace). -/
theorem plan_create_empty_input_panics :
    PlanDft1d ⟨7⟩ ⟨32, []⟩ ⟨64, []⟩ FFTW_FORWARD FFTW_ESTIMATE =
      ⟨.error .indexOutOfRange, []⟩ := by
  decide

/-- C7 (amended): whenever the first-element dereferences succeed (all
leading dimensions non-zero), every plan constructor performs no validation
of its own: it forwards the dimensions — taken from the input argument alone
for the complex transforms (the output's length is never consulted, so
mismatched input/output shapes go through unchecked; the lengths here are
completely unconstrained) and from the real output for C2R — together with
the raw buffer addresses, exactly as given, and wraps whatever handle the
engine returns without distinguishing engine failure from success. -/
theorem plan_create_forwards_unvalidated (eng : Engine) (pa pb : Nat)
    (a0 b0 : Cplx) (as bs : List Cplx) (ra0 rb0 : Flt) (ras rbs : List Flt)
    (irest orest : List (Buf Cplx)) (irest3 orest3 : List (List (Buf Cplx)))
    (it3 ot3 : List (Buf Cplx)) (dir : Int) (flag : Nat) :
    PlanDft1d eng ⟨pa, a0 :: as⟩ ⟨pb, b0 :: bs⟩ dir flag =
      ⟨.ok ⟨eng.planHandle⟩,
        [.planCreate .dft1d [as.length + 1] pa pb (some dir) flag,
          .finalizerSet eng.planHandle]⟩ ∧
    PlanDft2d eng (⟨pa, a0 :: as⟩ :: irest) (⟨pb, b0 :: bs⟩ :: orest)
        dir flag =
      ⟨.ok ⟨eng.planHandle⟩,
        [.planCreate .dft2d [irest.length + 1, as.length + 1] pa pb
            (some dir) flag,
          .finalizerSet eng.planHandle]⟩ ∧
    PlanDft3d eng ((⟨pa, a0 :: as⟩ :: it3) :: irest3)
        ((⟨pb, b0 :: bs⟩ :: ot3) :: orest3) dir flag =
      ⟨.ok ⟨eng.planHandle⟩,
        [.planCreate .dft3d
            [irest3.length + 1, it3.length + 1, as.length + 1] pa pb
            (some dir) flag,
          .finalizerSet eng.planHandle]⟩ ∧
    PlanDftR2C1d eng ⟨pa, ra0 :: ras⟩ ⟨pb, b0 :: bs⟩ flag =
      ⟨.ok ⟨eng.planHandle⟩,
        [.planCreate .dftR2C1d [ras.length + 1] pa pb none flag,
          .finalizerSet eng.planHandle]⟩ ∧
    PlanDftC2R1d eng ⟨pa, a0 :: as⟩ ⟨pb, rb0 :: rbs⟩ flag =
      ⟨.ok ⟨eng.planHandle⟩,
        [.planCreate .dftC2R1d [rbs.length + 1] pa pb none flag,
          .finalizerSet eng.planHandle]⟩ := by
  refine ⟨?_, ?_, ?_, ?_, ?_⟩ <;>
    simp [PlanDft1d, PlanDft2d, PlanDft3d, PlanDftR2C1d, PlanDftC2R1d,
      Buf.addrFirst, firstRow, newPlan]

/- ### C8 -/

/-- Counterexample to C8 as stated: the configuration values are declared in
the source with Go `var`, so the assignment `fftw.Forward = 0` is accepted by
the language and changes the observable value — the values are package-level
mutable variables, not immutable constants (the spec's own design notes call
them "Global mutable configuration constants"). -/
theorem direction_vars_not_immutable :
    (assignForward pkgInit 0).Forward ≠ FFTW_FORWARD := by
  decide

/-- C8 (amended): the package variables are initialized at process start to
exactly the engine's enumeration values, the mapping is one-to-one (the two
directions differ, the two flags differ), and each carries nothing beyond
the plain integer value; they are, however, `var` declarations, so the
language does not enforce their immutability. -/
theorem direction_flag_engine_mapping :
    pkgInit.Forward = FFTW_FORWARD ∧ pkgInit.Backward = FFTW_BACKWARD ∧
    pkgInit.Estimate = FFTW_ESTIMATE ∧ pkgInit.Measure = FFTW_MEASURE ∧
    pkgInit.Forward ≠ pkgInit.Backward ∧
    pkgInit.Estimate ≠ pkgInit.Measure := by
  decide

/- ### C10 -/

theorem addrFirst_empty {α : Type} (x : Buf α) (h : x.data = []) :
    x.addrFirst = .error .indexOutOfRange := by
  unfold Buf.addrFirst
  rw [h]

theorem free1d_empty (x : Buf Cplx) (h : x.data = []) :
    Free1d x = ⟨.error .indexOutOfRange, []⟩ := by
  simp [Free1d, addrFirst_empty x h]

theorem free2d_empty (x : List (Buf Cplx))
    (h : (x.headD ⟨0, []⟩).data = []) :
    Free2d x = ⟨.error .indexOutOfRange, []⟩ := by
  rcases x with _ | ⟨⟨rb, _ | ⟨c, u⟩⟩, t⟩ <;>
    simp_all [Free2d, firstRow, Buf.addrFirst]

theorem free3d_empty (x : List (List (Buf Cplx)))
    (h : ((x.headD []).headD ⟨0, []⟩).data = []) :
    Free3d x = ⟨.error .indexOutOfRange, []⟩ := by
  rcases x with _ | ⟨_ | ⟨⟨rb, _ | ⟨c, u⟩⟩, t'⟩, t⟩ <;>
    simp_all [Free3d, firstRow, Buf.addrFirst]

theorem plan1d_empty (eng : Engine) (inp outp : Buf Cplx) (dir : Int)
    (flag : Nat) (h : inp.data = [] ∨ outp.data = []) :
    PlanDft1d eng inp outp dir flag = ⟨.error .indexOutOfRange, []⟩ := by
  rcases inp with ⟨ib, _ | ⟨c, u⟩⟩ <;> rcases outp with ⟨ob, _ | ⟨c', u'⟩⟩ <;>
    simp_all [PlanDft1d, Buf.addrFirst]

theorem plan2d_empty (eng : Engine) (inp outp : List (Buf Cplx)) (dir : Int)
    (flag : Nat)
    (h : (inp.headD ⟨0, []⟩).data = [] ∨ (outp.headD ⟨0, []⟩).data = []) :
    PlanDft2d eng inp outp dir flag = ⟨.error .indexOutOfRange, []⟩ := by
  rcases inp with _ | ⟨⟨rb, _ | ⟨c, u⟩⟩, t⟩ <;>
    rcases outp with _ | ⟨⟨sb, _ | ⟨c', u'⟩⟩, t'⟩ <;>
      simp_all [PlanDft2d, firstRow, Buf.addrFirst]

theorem plan3d_empty (eng : Engine) (inp outp : List (List (Buf Cplx)))
    (dir : Int) (flag : Nat)
    (h : ((inp.headD []).headD ⟨0, []⟩).data = [] ∨
      ((outp.headD []).headD ⟨0, []⟩).data = []) :
    PlanDft3d eng inp outp dir flag = ⟨.error .indexOutOfRange, []⟩ := by
  rcases inp with _ | ⟨_ | ⟨⟨rb, _ | ⟨c, u⟩⟩, t'⟩, t⟩ <;>
    rcases outp with _ | ⟨_ | ⟨⟨sb, _ | ⟨c', v⟩⟩, s'⟩, s⟩ <;>
      simp_all [PlanDft3d, firstRow, Buf.addrFirst]

theorem planR2C_empty (eng : Engine) (inp : Buf Flt) (outp : Buf Cplx)
    (flag : Nat) (h : inp.data = [] ∨ outp.data = []) :
    PlanDftR2C1d eng inp outp flag = ⟨.error .indexOutOfRange, []⟩ := by
  rcases inp with ⟨ib, _ | ⟨c, u⟩⟩ <;> rcases outp with ⟨ob, _ | ⟨c', u'⟩⟩ <;>
    simp_all [PlanDftR2C1d, Buf.addrFirst]

theorem planC2R_empty (eng : Engine) (inp : Buf Cplx) (outp : Buf Flt)
    (flag : Nat) (h : inp.data = [] ∨ outp.data = []) :
    PlanDftC2R1d eng inp outp flag = ⟨.error .indexOutOfRange, []⟩ := by
  rcases inp with ⟨ib, _ | ⟨c, u⟩⟩ <;> rcases outp with ⟨ob, _ | ⟨c', u'⟩⟩ <;>
    simp_all [PlanDftC2R1d, Buf.addrFirst]

theorem dft1d_empty (eng : Engine) (inp outp : Buf Cplx) (dir : Int)
    (flag : Nat) (h : inp.data = [] ∨ outp.data = []) :
    Dft1d eng inp outp dir flag = ⟨.error .indexOutOfRange, []⟩ := by
  unfold Dft1d
  rw [plan1d_empty eng inp outp dir flag h]
  rfl

theorem dft2d_empty (eng : Engine) (inp outp : List (Buf Cplx)) (dir : Int)
    (flag : Nat)
    (h : (inp.headD ⟨0, []⟩).data = [] ∨ (outp.headD ⟨0, []⟩).data = []) :
    Dft2d eng inp outp dir flag = ⟨.error .indexOutOfRange, []⟩ := by
  unfold Dft2d
  rw [plan2d_empty eng inp outp dir flag h]
  rfl

theorem dft3d_empty (eng : Engine) (inp outp : List (List (Buf Cplx)))
    (dir : Int) (flag : Nat)
    (h : ((inp.headD []).headD ⟨0, []⟩).data = [] ∨
      ((outp.headD []).headD ⟨0, []⟩).data = []) :
    Dft3d eng inp outp dir flag = ⟨.error .indexOutOfRange, []⟩ := by
  unfold Dft3d
  rw [plan3d_empty eng inp outp dir flag h]
  rfl

/-- Counterexample to C10 as stated: an empty slice at a non-first position
does not make the operation panic — `Free2d` only dereferences `x[0][0]`, so
with an empty second row it succeeds and frees the first row's address. -/
theorem free2d_empty_second_row_no_panic :
    Free2d [⟨32, [0]⟩, ⟨48, []⟩] = ⟨.ok (), [.freeCall 32]⟩ := by
  decide

/-- C10 (amended): every buffer-taking operation dereferences only the first
element along the path `x[0]` / `x[0][0]` / `x[0][0][0]` of each argument, so
its undocumented precondition is that the argument and its chain of first
rows are non-empty; if the slice is empty at any level of that first-element
path (for either argument of the plan constructors), the operation panics
with a Go index-out-of-range runtime error before any native call is made
(the result is the panic and the native-call trace is empty). An empty
non-first row is not detected (see the counterexample). -/
theorem empty_first_path_panics :
    (∀ x : Buf Cplx, x.data = [] →
      Free1d x = ⟨.error .indexOutOfRange, []⟩) ∧
    (∀ x : List (Buf Cplx), (x.headD ⟨0, []⟩).data = [] →
      Free2d x = ⟨.error .indexOutOfRange, []⟩) ∧
    (∀ x : List (List (Buf Cplx)), ((x.headD []).headD ⟨0, []⟩).data = [] →
      Free3d x = ⟨.error .indexOutOfRange, []⟩) ∧
    (∀ (eng : Engine) (inp outp : Buf Cplx) (dir : Int) (flag : Nat),
      inp.data = [] ∨ outp.data = [] →
      PlanDft1d eng inp outp dir flag = ⟨.error .indexOutOfRange, []⟩) ∧
    (∀ (eng : Engine) (inp outp : List (Buf Cplx)) (dir : Int) (flag : Nat),
      (inp.headD ⟨0, []⟩).data = [] ∨ (outp.headD ⟨0, []⟩).data = [] →
      PlanDft2d eng inp outp dir flag = ⟨.error .indexOutOfRange, []⟩) ∧
    (∀ (eng : Engine) (inp outp : List (List (Buf Cplx))) (dir : Int)
        (flag : Nat),
      ((inp.headD []).headD ⟨0, []⟩).data = [] ∨
        ((outp.headD []).headD ⟨0, []⟩).data = [] →
      PlanDft3d eng inp outp dir flag = ⟨.error .indexOutOfRange, []⟩) ∧
    (∀ (eng : Engine) (inp : Buf Flt) (outp : Buf Cplx) (flag : Nat),
      inp.data = [] ∨ outp.data = [] →
      PlanDftR2C1d eng inp outp flag = ⟨.error .indexOutOfRange, []⟩) ∧
    (∀ (eng : Engine) (inp : Buf Cplx) (outp : Buf Flt) (flag : Nat),
      inp.data = [] ∨ outp.data = [] →
      PlanDftC2R1d eng inp outp flag = ⟨.error .indexOutOfRange, []⟩) ∧
    (∀ (eng : Engine) (inp outp : Buf Cplx) (dir : Int) (flag : Nat),
      inp.data = [] ∨ outp.data = [] →
      Dft1d eng inp outp dir flag = ⟨.error .indexOutOfRange, []⟩) ∧
    (∀ (eng : Engine) (inp outp : List (Buf Cplx)) (dir : Int) (flag : Nat),
      (inp.headD ⟨0, []⟩).data = [] ∨ (outp.headD ⟨0, []⟩).data = [] →
      Dft2d eng inp outp dir flag = ⟨.error .indexOutOfRange, []⟩) ∧
    (∀ (eng : Engine) (inp outp : List (List (Buf Cplx))) (dir : Int)
        (flag : Nat),
      ((inp.headD []).headD ⟨0, []⟩).data = [] ∨
        ((outp.headD []).headD ⟨0, []⟩).data = [] →
      Dft3d eng inp outp dir flag = ⟨.error .indexOutOfRange, []⟩) :=
  ⟨free1d_empty, free2d_empty, free3d_empty, plan1d_empty, plan2d_empty,
    plan3d_empty, planR2C_empty, planC2R_empty, dft1d_empty, dft2d_empty,
    dft3d_empty⟩

/-- Witness for C10: concrete empty-first-path calls for each operation all
panic with index out of range before any native call. -/
theorem empty_first_path_panics_witness :
    ((⟨32, []⟩ : Buf Cplx).data = [] ∧
      Free1d ⟨32, []⟩ = ⟨.error .indexOutOfRange, []⟩) ∧
    ((([] : List (Buf Cplx)).headD ⟨0, []⟩).data = [] ∧
      Free2d [] = ⟨.error .indexOutOfRange, []⟩) ∧
    (((([[]] : List (List (Buf Cplx))).headD []).headD ⟨0, []⟩).data = [] ∧
      Free3d [[]] = ⟨.error .indexOutOfRange, []⟩) ∧
    (((⟨32, [0]⟩ : Buf Cplx).data = [] ∨ (⟨64, []⟩ : Buf Cplx).data = []) ∧
      PlanDft1d ⟨7⟩ ⟨32, [0]⟩ ⟨64, []⟩ (-1) 64 =
        ⟨.error .indexOutOfRange, []⟩) ∧
    (((([⟨32, []⟩] : List (Buf Cplx)).headD ⟨0, []⟩).data = [] ∨
        (([] : List (Buf Cplx)).headD ⟨0, []⟩).data = []) ∧
      PlanDft2d ⟨7⟩ [⟨32, []⟩] [] (-1) 64 = ⟨.error .indexOutOfRange, []⟩) ∧
    ((((([] : List (List (Buf Cplx))).headD []).headD ⟨0, []⟩).data = [] ∨
        ((([] : List (List (Buf Cplx))).headD []).headD ⟨0, []⟩).data = []) ∧
      PlanDft3d ⟨7⟩ [] [] (-1) 64 = ⟨.error .indexOutOfRange, []⟩) ∧
    (((⟨32, []⟩ : Buf Flt).data = [] ∨ (⟨64, [0]⟩ : Buf Cplx).data = []) ∧
      PlanDftR2C1d ⟨7⟩ ⟨32, []⟩ ⟨64, [0]⟩ 64 =
        ⟨.error .indexOutOfRange, []⟩) ∧
    (((⟨32, []⟩ : Buf Cplx).data = [] ∨ (⟨64, [1]⟩ : Buf Flt).data = []) ∧
      PlanDftC2R1d ⟨7⟩ ⟨32, []⟩ ⟨64, [1]⟩ 64 =
        ⟨.error .indexOutOfRange, []⟩) ∧
    (((⟨32, []⟩ : Buf Cplx).data = [] ∨ (⟨64, [0]⟩ : Buf Cplx).data = []) ∧
      Dft1d ⟨7⟩ ⟨32, []⟩ ⟨64, [0]⟩ (-1) 64 = ⟨.error .indexOutOfRange, []⟩) ∧
    (((([] : List (Buf Cplx)).headD ⟨0, []⟩).data = [] ∨
        (([] : List (Buf Cplx)).headD ⟨0, []⟩).data = []) ∧
      Dft2d ⟨7⟩ [] [] (-1) 64 = ⟨.error .indexOutOfRange, []⟩) ∧
    ((((([[⟨32, []⟩]] : List (List (Buf Cplx))).headD []).headD
          ⟨0, []⟩).data = [] ∨
        ((([] : List (List (Buf Cplx))).headD []).headD ⟨0, []⟩).data = []) ∧
      Dft3d ⟨7⟩ [[⟨32, []⟩]] [] (-1) 64 = ⟨.error .indexOutOfRange, []⟩) :=
  ⟨⟨rfl, empty_first_path_panics.1 ⟨32, []⟩ rfl⟩,
    ⟨rfl, empty_first_path_panics.2.1 [] rfl⟩,
    ⟨rfl, empty_first_path_panics.2.2.1 [[]] rfl⟩,
    ⟨Or.inr rfl, empty_first_path_panics.2.2.2.1 ⟨7⟩ ⟨32, [0]⟩ ⟨64, []⟩
      (-1) 64 (Or.inr rfl)⟩,
    ⟨Or.inl rfl, empty_first_path_panics.2.2.2.2.1 ⟨7⟩ [⟨32, []⟩] []
      (-1) 64 (Or.inl rfl)⟩,
    ⟨Or.inl rfl, empty_first_path_panics.2.2.2.2.2.1 ⟨7⟩ [] [] (-1) 64
      (Or.inl rfl)⟩,
    ⟨Or.inl rfl, empty_first_path_panics.2.2.2.2.2.2.1 ⟨7⟩ ⟨32, []⟩
      ⟨64, [0]⟩ 64 (Or.inl rfl)⟩,
    ⟨Or.inl rfl, empty_first_path_panics.2.2.2.2.2.2.2.1 ⟨7⟩ ⟨32, []⟩
      ⟨64, [1]⟩ 64 (Or.inl rfl)⟩,
    ⟨Or.inl rfl, empty_first_path_panics.2.2.2.2.2.2.2.2.1 ⟨7⟩ ⟨32, []⟩
      ⟨64, [0]⟩ (-1) 64 (Or.inl rfl)⟩,
    ⟨Or.inl rfl, empty_first_path_panics.2.2.2.2.2.2.2.2.2.1 ⟨7⟩ [] []
      (-1) 64 (Or.inl rfl)⟩,
    ⟨Or.inl rfl, empty_first_path_panics.2.2.2.2.2.2.2.2.2.2 ⟨7⟩
      [[⟨32, []⟩]] [] (-1) 64 (Or.inl rfl)⟩⟩

/- ### C9 -/

theorem geom_sum_prim_root {K : Type} [Field K] {N : Nat} {μ : K}
    (hμN : μ ^ N = 1) (hμ : μ ≠ 1) :
    ∑ j : Fin N, μ ^ (j : Nat) = 0 := by
  rw [Fin.sum_univ_eq_sum_range (fun i => μ ^ i) N, geom_sum_eq hμ N, hμN,
    sub_self, zero_div]

theorem prim_root_orthogonality {K : Type} [Field K] {N : Nat} (hN : 0 < N)
    {ζ : K} (hζ : IsPrimitiveRoot ζ N) (l k : Fin N) :
    ∑ j : Fin N, (ζ⁻¹ ^ (l : Nat) * ζ ^ (k : Nat)) ^ (j : Nat) =
      if l = k then (N : K) else 0 := by
  have hζ0 : ζ ≠ 0 := by
    intro h0
    have hpow := hζ.pow_eq_one
    rw [h0, zero_pow (by omega : N ≠ 0)] at hpow
    exact zero_ne_one hpow
  by_cases hlk : l = k
  · subst hlk
    rw [if_pos rfl]
    have hone : (ζ ^ (l : Nat))⁻¹ * ζ ^ (l : Nat) = 1 :=
      inv_mul_cancel₀ (pow_ne_zero _ hζ0)
    simp [inv_pow, hone]
  · rw [if_neg hlk]
    have hμN : (ζ⁻¹ ^ (l : Nat) * ζ ^ (k : Nat)) ^ N = 1 := by
      calc (ζ⁻¹ ^ (l : Nat) * ζ ^ (k : Nat)) ^ N
          = (ζ⁻¹ ^ N) ^ (l : Nat) * (ζ ^ N) ^ (k : Nat) := by ring
        _ = 1 := by
            rw [inv_pow, hζ.pow_eq_one, inv_one, one_pow, one_pow, mul_one]
    have hμ1 : ζ⁻¹ ^ (l : Nat) * ζ ^ (k : Nat) ≠ 1 := by
      intro h1
      apply hlk
      have hpl : ζ ^ (l : Nat) ≠ 0 := pow_ne_zero _ hζ0
      rw [inv_pow] at h1
      exact Fin.ext (hζ.pow_inj l.isLt k.isLt ((inv_mul_eq_one₀ hpl).mp h1))
    exact geom_sum_prim_root hμN hμ1

theorem dft_inversion_core {K : Type} [Field K] (N : Nat) (hN : 0 < N)
    (ζ : K) (hζ : IsPrimitiveRoot ζ N) (x : Fin N → K) :
    engineDft N ζ (engineDft N ζ⁻¹ x) = fun k => (N : K) * x k := by
  funext k
  unfold engineDft
  simp_rw [Finset.sum_mul]
  rw [Finset.sum_comm]
  have hterm : ∀ l j : Fin N,
      x l * ζ⁻¹ ^ ((l : Nat) * (j : Nat)) * ζ ^ ((j : Nat) * (k : Nat)) =
      x l * (ζ⁻¹ ^ (l : Nat) * ζ ^ (k : Nat)) ^ (j : Nat) := by
    intro l j
    rw [mul_pow, ← pow_mul, ← pow_mul, Nat.mul_comm (k : Nat) (j : Nat),
      mul_assoc]
  simp_rw [hterm, ← Finset.mul_sum, prim_root_orthogonality hN hζ]
  simp [mul_ite, mul_zero, Finset.sum_ite_eq', mul_comm]

/-- Modelled from the spec: the transform mathematics lives in the external
FFTW engine, not in this repository's source, so the round trip is settled
against the unnormalized DFT (`engineDft`): for every size `N ≥ 1`, every
primitive `N`-th root of unity `ζ` (FFTW uses `exp(2πi/N)`) and every complex
sequence `x`, applying the forward transform (twiddle base `ζ⁻¹`, exponent
`-2πi jk/N`) and then the backward transform (twiddle base `ζ`) yields
exactly `N · x` — exact equality, hence within any floating-point
tolerance. -/
theorem dft_roundtrip_unnormalized (N : Nat) (hN : 0 < N) (ζ : ℂ)
    (hζ : IsPrimitiveRoot ζ N) (x : Fin N → ℂ) :
    engineDft N ζ (engineDft N ζ⁻¹ x) = fun k => (N : ℂ) * x k :=
  dft_inversion_core N hN ζ hζ x

theorem neg_one_prim_root_two : IsPrimitiveRoot (-1 : ℂ) 2 := by
  constructor
  · norm_num
  · intro l hl
    rcases Nat.even_or_odd l with he | ho
    · rcases he with ⟨m, rfl⟩
      exact ⟨m, by omega⟩
    · exfalso
      rw [ho.neg_one_pow] at hl
      norm_num at hl

/-- Witness for C9: the length-2 round trip with the primitive square root
of unity `-1` doubles the concrete sequence `[3, 5]`. -/
theorem dft_roundtrip_unnormalized_witness :
    ((0 : Nat) < 2 ∧ IsPrimitiveRoot (-1 : ℂ) 2) ∧
    engineDft 2 (-1 : ℂ) (engineDft 2 (-1 : ℂ)⁻¹ ![3, 5]) =
      fun k => ((2 : Nat) : ℂ) * ![3, 5] k :=
  ⟨⟨by decide, neg_one_prim_root_two⟩,
    dft_roundtrip_unnormalized 2 (by decide) (-1) neg_one_prim_root_two
      ![3, 5]⟩
